import Mathlib

/-!
Verification of the ezp2p lobby/consensus core against its specification.

The definitions below are a shallow embedding of the TypeScript source:

* `Ezp2p.Codes`   — `src/networking/lobbyCode.ts` (current revision with the
  `?code=` query-parameter branch): lobby-code validation, normalization and
  URL extraction.  `new URL(...)` / `URLSearchParams` (browser built-ins) are
  modelled by a simplified WHATWG parser sufficient for scheme/authority/path/
  query splitting; percent-decoding and `+`-decoding are not modelled (no
  claim input needs them).
* `Ezp2p.Engine`  — `src/games/hooks.ts` (`useGameEngine`): pending moves,
  the dual-approval finalization effect, the host consensus effect, and the
  one-shot `sync-state` latch.
* `Ezp2p.Net`     — the inbound-message security pipeline of
  `src/networking/usePeer.ts` (`handleMessage`) and the `game-message`
  handler of `src/networking/messageHandlers.ts`.
* `Ezp2p.Lobby`   — host lobby state and the `join-request`, `player-left`
  and kick operations of `src/networking/messageHandlers.ts` /
  `src/networking/usePeer.ts`, plus the reconnection-window expiry callback.
* `Ezp2p.Session` — the `is_game_started` life cycle (`startGame`,
  `resetGame`, received `game-start`).

React `useState` cells and mutable refs become record fields; an operation is
a pure function from the record (plus the message/inputs) to the new record
and a list of emitted effects.  Nondeterministic inputs of the source
(`crypto.randomUUID()`, `Date.now()`) are explicit parameters.
-/

namespace Ezp2p

/-! ## Association-list model of JavaScript `Map` (insertion ordered). -/

/-- JS `Map.get`: value of the first (unique) entry with the given key. -/
def alGet {α β : Type} [BEq α] (m : List (α × β)) (k : α) : Option β :=
  (m.find? (fun p => p.1 == k)).map (fun p => p.2)

/-- JS `Map.set`: overwrite in place if the key is present, else append. -/
def alSet {α β : Type} [BEq α] (m : List (α × β)) (k : α) (v : β) : List (α × β) :=
  if m.any (fun p => p.1 == k) then
    m.map (fun p => if p.1 == k then (k, v) else p)
  else
    m ++ [(k, v)]

/-- JS `Map.delete`: remove the entry with the given key, if any. -/
def alDelete {α β : Type} [BEq α] (m : List (α × β)) (k : α) : List (α × β) :=
  m.filter (fun p => !(p.1 == k))

/-- `PlayerInfo` (`src/networking/types.ts`): `isConnected` is optional in the
wire schema, hence `Option Bool` (the source distinguishes `undefined` from
`false` — e.g. the connected-count filter keeps `undefined`). -/
structure PlayerInfo where
  id : String
  name : String
  isHost : Bool
  isReady : Bool
  isConnected : Option Bool
  deriving DecidableEq, Repr

namespace Codes

/-! ## Lobby-code utilities (`src/networking/lobbyCode.ts`). -/

/-- ASCII letter (either case). -/
def isAsciiAlphaChar (c : Char) : Bool :=
  ('A' ≤ c && c ≤ 'Z') || ('a' ≤ c && c ≤ 'z')

/-- ASCII digit. -/
def isAsciiDigitChar (c : Char) : Bool :=
  '0' ≤ c && c ≤ '9'

/-- The character class `[A-Za-z0-9]` of the fallback regex. -/
def isAlphanumChar (c : Char) : Bool :=
  isAsciiAlphaChar c || isAsciiDigitChar c

/-- Characters allowed after the first character of a URL scheme. -/
def isSchemeTailChar (c : Char) : Bool :=
  isAsciiAlphaChar c || isAsciiDigitChar c || c == '+' || c == '-' || c == '.'

/-- Split a character list at the first occurrence of `sep`; `none` when
`sep` does not occur. -/
def splitAtFirst (sep : Char) : List Char → Option (List Char × List Char)
  | [] => none
  | c :: rest =>
    if c == sep then some ([], rest)
    else (splitAtFirst sep rest).map (fun p => (c :: p.1, p.2))

/-- JS `String.split(sep)`: every maximal `sep`-free run, keeping empties. -/
def splitAll (sep : Char) : List Char → List (List Char)
  | [] => [[]]
  | c :: rest =>
    let r := splitAll sep rest
    if c == sep then [] :: r
    else
      match r with
      | [] => [[c]]
      | h :: t => (c :: h) :: t

/-- Whitespace removed by JS `String.trim` (ASCII portion). -/
def isJsWhitespace (c : Char) : Bool :=
  c == ' ' || c == '\t' || c == '\n' || c == '\r' || c == '\x0b' || c == '\x0c'

/-- Drop surrounding whitespace from a character list. -/
def trimChars (l : List Char) : List Char :=
  ((l.dropWhile isJsWhitespace).reverse.dropWhile isJsWhitespace).reverse

/-- `isValidLobbyCode`: the regex test `/^[A-Z0-9]{6}$/`. -/
def isValidLobbyCode (code : String) : Bool :=
  code.data.length == 6 &&
    code.data.all (fun c => ('A' ≤ c && c ≤ 'Z') || ('0' ≤ c && c ≤ '9'))

/-- `normalizeLobbyCode`: `code.toUpperCase().trim()`. -/
def normalizeLobbyCode (code : String) : String :=
  String.mk (trimChars (code.data.map Char.toUpper))

/-- Result of `new URL(input)` restricted to the pieces the extractor reads:
the path and the raw query string. -/
structure UrlModel where
  pathname : List Char
  query : List Char
  deriving DecidableEq, Repr

/-- Simplified WHATWG URL parser backing `new URL(input)`.  A parse succeeds
when the input starts with a syntactically valid scheme followed by a colon;
an authority introduced by `//` must be nonempty.  Fragments and queries are
split off the path as in the standard. -/
def parseURL (input : String) : Option UrlModel :=
  match splitAtFirst ':' input.data with
  | none => none
  | some (schemePart, rest) =>
    match schemePart with
    | [] => none
    | c :: cs =>
      if isAsciiAlphaChar c && cs.all isSchemeTailChar then
        match rest with
        | '/' :: '/' :: afterSlashes =>
          let authority :=
            afterSlashes.takeWhile (fun ch => !(ch == '/' || ch == '?' || ch == '#'))
          if authority.isEmpty then none
          else
            let afterAuthority :=
              afterSlashes.dropWhile (fun ch => !(ch == '/' || ch == '?' || ch == '#'))
            let path := afterAuthority.takeWhile (fun ch => !(ch == '?' || ch == '#'))
            let afterPath := afterAuthority.dropWhile (fun ch => !(ch == '?' || ch == '#'))
            let query :=
              match afterPath with
              | '?' :: qs => qs.takeWhile (fun ch => !(ch == '#'))
              | _ => []
            some { pathname := path, query := query }
        | _ =>
          let path := rest.takeWhile (fun ch => !(ch == '?' || ch == '#'))
          let afterPath := rest.dropWhile (fun ch => !(ch == '?' || ch == '#'))
          let query :=
            match afterPath with
            | '?' :: qs => qs.takeWhile (fun ch => !(ch == '#'))
            | _ => []
          some { pathname := path, query := query }
      else none

/-- `url.searchParams.get(name)`: first value bound to `name` in the query
string (without percent-decoding, which no caller here needs). -/
def searchParamsGet (query : List Char) (name : String) : Option String :=
  let pieces := (splitAll '&' query).filter (fun p => !p.isEmpty)
  let pairs := pieces.map (fun seg =>
    match splitAtFirst '=' seg with
    | some (n, v) => (String.mk n, String.mk v)
    | none => (String.mk seg, ""))
  (pairs.find? (fun p => p.1 == name)).map (fun p => p.2)

/-- `extractCodeFromUrl` (current revision of `lobbyCode.ts`): prefer the
`?code=` query parameter, then the last path segment, then the last six
alphanumeric characters of the cleaned input. -/
def extractCodeFromUrl (input : String) : Option String :=
  let viaUrl : Option String :=
    match parseURL input with
    | none => none
    | some url =>
      let fromParam : Option String :=
        match searchParamsGet url.query "code" with
        | some codeParam =>
          if codeParam ≠ "" then
            let norm := normalizeLobbyCode codeParam
            if isValidLobbyCode norm then some norm else none
          else none
        | none => none
      match fromParam with
      | some c => some c
      | none =>
        let pathSegments := (splitAll '/' url.pathname).filter (fun s => !s.isEmpty)
        match pathSegments.getLast? with
        | some seg =>
          let lastSegment := String.mk (seg.map Char.toUpper)
          if isValidLobbyCode lastSegment then some lastSegment else none
        | none => none
  match viaUrl with
  | some c => some c
  | none =>
    let alphanumeric := (input.data.filter isAlphanumChar).map Char.toUpper
    if 6 ≤ alphanumeric.length then
      let code := String.mk (alphanumeric.drop (alphanumeric.length - 6))
      if isValidLobbyCode code then some code else none
    else none

end Codes

namespace Engine

/-! ## Turn consensus engine (`useGameEngine` in `src/games/hooks.ts`). -/

/-- `PendingMoveState<TMove>` of `hooks.ts`. -/
structure PendingMoveState (TMove : Type) where
  id : String
  move : TMove
  proposerId : String
  approvals : List String
  locallyApproved : Bool
  deriving DecidableEq, Repr

/-- The engine's per-peer state cells: `gameState`, `pendingMove`,
`finalizeReceived` and the `hasReceivedInitialSync` ref. -/
structure EngineState (TState TMove : Type) where
  gameState : TState
  pendingMove : Option (PendingMoveState TMove)
  finalizeReceived : Option String
  hasReceivedInitialSync : Bool
  deriving DecidableEq, Repr

/-- The finalization effect (dual-approval check): runs after
`finalizeReceived` changes.  Nothing happens unless both a pending move and a
received finalize id exist and the ids match; a locally unapproved move is
refused with both cells cleared; otherwise the move is applied and both cells
cleared. -/
def finalizationEffect {TState TMove : Type} (applyMove : TState → TMove → TState)
    (s : EngineState TState TMove) : EngineState TState TMove :=
  match s.pendingMove, s.finalizeReceived with
  | some pm, some fid =>
    if fid = pm.id then
      if pm.locallyApproved then
        { s with gameState := applyMove s.gameState pm.move,
                 pendingMove := none, finalizeReceived := none }
      else
        { s with pendingMove := none, finalizeReceived := none }
    else s
  | _, _ => s

/-- Receipt of a `finalize-move` message in the routing effect: the host
breaks out (it finalizes through its own consensus effect); a guest stores
the received move id and the finalization effect then runs. -/
def receiveFinalizeMove {TState TMove : Type} (isHost : Bool)
    (applyMove : TState → TMove → TState) (s : EngineState TState TMove)
    (moveId : String) : EngineState TState TMove :=
  if isHost then s
  else finalizationEffect applyMove { s with finalizeReceived := some moveId }

/-- The host consensus-check effect: when every player not listed in
`disconnectedPlayerIds` appears in the pending move's approvals, broadcast
`finalize-move{move_id}` (the returned `Option String`) and trigger the local
finalization path by setting `finalizeReceived`. -/
def hostConsensusCheck {TState TMove : Type} (isHost : Bool)
    (players : List PlayerInfo) (disconnectedPlayerIds : List String)
    (s : EngineState TState TMove) : EngineState TState TMove × Option String :=
  match s.pendingMove with
  | none => (s, none)
  | some pm =>
    if isHost then
      let activePlayers := players.filter (fun p => !(disconnectedPlayerIds.contains p.id))
      if activePlayers.all (fun p => pm.approvals.contains p.id) then
        ({ s with finalizeReceived := some pm.id }, some pm.id)
      else (s, none)
    else (s, none)

/-- Receipt of a `sync-state` message: accepted only by a guest that has not
latched `hasReceivedInitialSync` yet; every later delivery is refused. -/
def receiveSyncState {TState TMove : Type} (isHost : Bool)
    (s : EngineState TState TMove) (syncedState : TState) :
    EngineState TState TMove :=
  if !isHost && !s.hasReceivedInitialSync then
    { s with gameState := syncedState, hasReceivedInitialSync := true }
  else s

end Engine

namespace Net

/-! ## Inbound-message security pipeline (`handleMessage` in
`src/networking/usePeer.ts`) and the `game-message` handler
(`src/networking/messageHandlers.ts`).

The pipeline is modelled for a message that arrived on a transport
connection (`fromConnection` present).  The per-peer sliding-window rate
limiter mutates a ref; its verdict for the incoming message is passed in as
the `rateLimited` flag. -/

/-- The fields of a wire message the security pipeline inspects.
`payloadPlayerId` is the `playerId` field of a `player-left` /
`player-ready` payload when the message carries one. -/
structure WireMsg where
  type : String
  senderId : String
  timestamp : Int
  payloadPlayerId : Option String
  deriving DecidableEq, Repr

/-- Message types a host must never accept from a guest connection. -/
def hostOnlyTypes : List String :=
  ["join-accepted", "join-rejected", "join-pending", "join-approved",
   "join-denied", "player-joined", "player-kicked", "host-left",
   "lobby-settings", "game-selected", "game-start"]

/-- Message types a guest only trusts on the host connection. -/
def guestSensitiveTypes : List String :=
  ["join-accepted", "join-rejected", "join-pending", "join-approved",
   "join-denied", "player-joined", "player-left", "player-kicked",
   "player-ready", "host-left", "lobby-settings", "game-selected",
   "game-start"]

/-- The security checks of `handleMessage` in source order: rate limit,
sender binding (the source guard is
`currentIsHost && verifiedId && verifiedId !== fromId`, so the drop fires
only when the receiver is host AND the transport address is mapped to a
TRUTHY, i.e. non-empty, logical id AND that id differs from `senderId`),
timestamp freshness, authority lists, and the host-side `player-left` /
`player-ready` payload checks.  Returns `true` when the message reaches its
handler. -/
def inboundAccepts (currentIsHost : Bool) (peerMap : List (String × String))
    (rateLimited : Bool) (now : Int) (msg : WireMsg) (connPeer : String)
    (isHostConn : Bool) : Bool :=
  if rateLimited then false
  else
    let senderMismatch :=
      if msg.type != "join-request" then
        match alGet peerMap connPeer with
        | some verifiedId =>
          currentIsHost && (verifiedId != "")
            && (verifiedId != msg.senderId)
        | none => false
      else false
    if senderMismatch then false
    else if 30000 < (now - msg.timestamp).natAbs then false
    else if currentIsHost then
      if hostOnlyTypes.contains msg.type then false
      else if msg.type == "player-left"
          && (msg.payloadPlayerId != some msg.senderId) then false
      else if msg.type == "player-ready"
          && (msg.payloadPlayerId != some msg.senderId) then false
      else true
    else
      if guestSensitiveTypes.contains msg.type && !isHostConn then false
      else true

/-- What the host does with an inbound `game-message` that reaches the
handler: `setLastGameMessage` runs (dispatched) and the message is relayed
to the other peers whenever `senderId` is truthy. -/
structure GameMessageOutcome where
  dispatched : Bool
  relayed : Bool
  deriving DecidableEq, Repr

/-- Host disposition of a `game-message` arriving on a guest connection:
pipeline checks, then the `game-message` handler. -/
def handleGameMessageOnHost (peerMap : List (String × String))
    (rateLimited : Bool) (now : Int) (msg : WireMsg) (connPeer : String) :
    GameMessageOutcome :=
  if inboundAccepts true peerMap rateLimited now msg connPeer false
      && msg.type == "game-message" then
    { dispatched := true, relayed := msg.senderId != "" }
  else
    { dispatched := false, relayed := false }

end Net

namespace Lobby

/-! ## Host lobby state machine (`src/networking/messageHandlers.ts`,
`src/networking/usePeer.ts`).

A transport connection is identified by its PeerJS address (`peer`) plus a
distinct object identity (`connId`).  Effects (sends, closes, broadcasts)
are returned as a list in emission order. -/

/-- A `DataConnection`: transport address plus object identity. -/
structure Conn where
  peer : String
  connId : Nat
  deriving DecidableEq, Repr

/-- A pending join request entry. -/
structure PendingJoinRequest where
  playerId : String
  playerName : String
  timestamp : Nat
  deriving DecidableEq, Repr

/-- `JoinRequestPayload` of `types.ts`. -/
structure JoinRequestPayload where
  playerName : String
  playerId : String
  sessionToken : Option String
  deriving DecidableEq, Repr

/-- Outbound lobby messages relevant to the claims (payload fields the
claims inspect; `lobbySettings` is carried as its `requiresRequest` flag). -/
inductive OutMessage where
  | joinRejected (reason : String)
  | joinAccepted (players : List PlayerInfo) (selectedGame : Option String)
      (requiresRequest : Bool) (isGameStarted : Bool)
      (sessionToken : Option String)
  | joinPending
  | playerJoined (player : PlayerInfo)
  | playerLeft (playerId : String)
  | playerKicked (playerId : String)
  deriving DecidableEq, Repr

/-- Observable transport effects of a host handler. -/
inductive HostEffect where
  | send (c : Conn) (msg : OutMessage)
  | closeAfterGrace (c : Conn)
  | closeNow (c : Conn)
  | broadcastExcept (msg : OutMessage) (excludeId : String)
  deriving DecidableEq, Repr

/-- The host-side lobby state: the `useState` cells and refs of `usePeer`
that the join/leave/kick handlers read and write.  `maxPlayers` models
`getGame(selectedGame)?.maxPlayers ?? 4`; `reconnectionTimers` is the key
set of the timer map. -/
structure HostState where
  isHost : Bool
  localPlayerId : String
  players : List PlayerInfo
  selectedGame : Option String
  requiresRequest : Bool
  isGameStarted : Bool
  maxPlayers : Nat
  pendingRequests : List PendingJoinRequest
  sessionTokens : List (String × String)
  connections : List (String × Conn)
  peerIdToLogicalId : List (String × String)
  reconnectionTimers : List String
  deriving DecidableEq, Repr

/-- The reconnection branch of the `join-request` handler (existing player,
token absent or matching): clear the reconnect timer, replace the stored
connection and transport-address mapping, mark the player connected, reply
`join-accepted` with the stored token, and re-broadcast `player-joined`. -/
def reconnectAccept (ctx : HostState) (payload : JoinRequestPayload)
    (fromConn : Conn) (expectedToken : Option String) (existing : PlayerInfo) :
    HostState × List HostEffect :=
  let updated := ctx.players.map (fun p =>
    if p.id == payload.playerId then { p with isConnected := some true } else p)
  let updatedPlayer := (updated.find? (fun p => p.id == payload.playerId)).getD
    { existing with
        isConnected := some true
        id := payload.playerId
        name := payload.playerName
        isHost := false }
  ({ ctx with
      reconnectionTimers :=
        ctx.reconnectionTimers.filter (fun t => !(t == payload.playerId)),
      connections := alSet ctx.connections payload.playerId fromConn,
      peerIdToLogicalId :=
        alSet ctx.peerIdToLogicalId fromConn.peer payload.playerId,
      players := updated },
   [HostEffect.send fromConn
      (OutMessage.joinAccepted updated ctx.selectedGame ctx.requiresRequest
        ctx.isGameStarted expectedToken),
    HostEffect.broadcastExcept (OutMessage.playerJoined updatedPlayer)
      payload.playerId])

/-- The host's `join-request` handler (`messageHandlers["join-request"]`).
`freshToken` models `crypto.randomUUID()` and `now` models `Date.now()`. -/
def handleJoinRequest (ctx : HostState) (payload : JoinRequestPayload)
    (fromConn : Conn) (freshToken : String) (now : Nat) :
    HostState × List HostEffect :=
  if !ctx.isHost then (ctx, [])
  else
    match ctx.players.find? (fun p => p.id == payload.playerId) with
    | some existingPlayer =>
      match alGet ctx.sessionTokens payload.playerId with
      | some expectedToken =>
        if expectedToken ≠ "" ∧ payload.sessionToken ≠ some expectedToken then
          (ctx, [HostEffect.send fromConn (OutMessage.joinRejected "denied"),
                 HostEffect.closeAfterGrace fromConn])
        else
          reconnectAccept ctx payload fromConn (some expectedToken)
            existingPlayer
      | none => reconnectAccept ctx payload fromConn none existingPlayer
    | none =>
      if ctx.isGameStarted then
        (ctx, [HostEffect.send fromConn (OutMessage.joinRejected "in-game"),
               HostEffect.closeAfterGrace fromConn])
      else if ctx.maxPlayers ≤ ctx.players.length then
        (ctx, [HostEffect.send fromConn
                 (OutMessage.joinRejected "capacity-reached"),
               HostEffect.closeAfterGrace fromConn])
      else if ctx.requiresRequest then
        ({ ctx with
            pendingRequests :=
              (ctx.pendingRequests.filter
                (fun r => !(r.playerId == payload.playerId))) ++
              [{ playerId := payload.playerId,
                 playerName := payload.playerName, timestamp := now }],
            connections := alSet ctx.connections payload.playerId fromConn,
            peerIdToLogicalId :=
              alSet ctx.peerIdToLogicalId fromConn.peer payload.playerId },
         [HostEffect.send fromConn OutMessage.joinPending])
      else
        let newPlayer : PlayerInfo :=
          { id := payload.playerId, name := payload.playerName,
            isHost := false, isReady := false, isConnected := some true }
        let updated := ctx.players ++ [newPlayer]
        ({ ctx with
            sessionTokens :=
              alSet ctx.sessionTokens payload.playerId freshToken,
            players := updated,
            connections := alSet ctx.connections payload.playerId fromConn,
            peerIdToLogicalId :=
              alSet ctx.peerIdToLogicalId fromConn.peer payload.playerId },
         [HostEffect.send fromConn
            (OutMessage.joinAccepted updated ctx.selectedGame
              ctx.requiresRequest false (some freshToken)),
          HostEffect.broadcastExcept (OutMessage.playerJoined newPlayer)
            payload.playerId])

/-- The `player-left` handler (`messageHandlers["player-left"]`): drop the
player and any pending request, close and forget its stored connection.
Session tokens are untouched. -/
def handlePlayerLeft (ctx : HostState) (leftId : String) :
    HostState × List HostEffect :=
  let base := { ctx with
      players := ctx.players.filter (fun p => !(p.id == leftId)),
      pendingRequests :=
        ctx.pendingRequests.filter (fun r => !(r.playerId == leftId)) }
  match alGet ctx.connections leftId with
  | some conn =>
    ({ base with
        peerIdToLogicalId := alDelete ctx.peerIdToLogicalId conn.peer,
        connections := alDelete ctx.connections leftId },
     [HostEffect.closeNow conn])
  | none => ({ base with connections := alDelete ctx.connections leftId }, [])

/-- `kickPlayer` of `usePeer.ts`: message to the victim, grace close,
broadcast to the rest, remove from players and connections (the transport
address map entry is NOT removed by this path). -/
def kickPlayer (ctx : HostState) (playerId : String) :
    HostState × List HostEffect :=
  if !ctx.isHost then (ctx, [])
  else
    let directEffects :=
      match alGet ctx.connections playerId with
      | some conn =>
        [HostEffect.send conn (OutMessage.playerKicked playerId),
         HostEffect.closeAfterGrace conn]
      | none => []
    let closeEffects :=
      match alGet ctx.connections playerId with
      | some conn => [HostEffect.closeNow conn]
      | none => []
    ({ ctx with
        players := ctx.players.filter (fun p => !(p.id == playerId)),
        connections := alDelete ctx.connections playerId },
     directEffects ++
       [HostEffect.broadcastExcept (OutMessage.playerKicked playerId)
          playerId] ++ closeEffects)

/-- `createLobby` (host branch of `usePeer.ts`) on a fresh page session:
the host is the sole player (ready, connected) and every map is empty; no
session token is created for the host's own logical id. -/
def createLobbyState (hostId hostName : String) : HostState :=
  { isHost := true, localPlayerId := hostId,
    players := [{ id := hostId, name := hostName, isHost := true,
                  isReady := true, isConnected := some true }],
    selectedGame := none, requiresRequest := true, isGameStarted := false,
    maxPlayers := 4, pendingRequests := [], sessionTokens := [],
    connections := [], peerIdToLogicalId := [], reconnectionTimers := [] }

/-- Outcome of the 5-second reconnection-window timer callback. -/
structure ExpiryOutcome where
  players : List PlayerInfo
  removed : Bool
  toreDown : Bool
  errorMsg : Option String
  broadcasts : List OutMessage
  deriving DecidableEq, Repr

/-- The reconnection-window expiry callback of `setupConnection`
(`usePeer.ts`): if the player is gone or reconnected, nothing happens;
otherwise the player is removed; in a started game with at most one
remaining connected player the lobby is torn down with an error, in a
started game with more it is a silent removal, and outside a game
`player-left` is broadcast. -/
def reconnectionWindowExpiry (isGameStarted : Bool)
    (players : List PlayerInfo) (guestLogicalId : String) : ExpiryOutcome :=
  match players.find? (fun p => p.id == guestLogicalId) with
  | none =>
    { players := players, removed := false, toreDown := false,
      errorMsg := none, broadcasts := [] }
  | some p =>
    if p.isConnected.getD false then
      { players := players, removed := false, toreDown := false,
        errorMsg := none, broadcasts := [] }
    else
      let updated := players.filter (fun q => !(q.id == guestLogicalId))
      if isGameStarted then
        let connectedCount :=
          (updated.filter (fun q => q.isConnected != some false)).length
        if connectedCount ≤ 1 then
          { players := updated, removed := true, toreDown := true,
            errorMsg := some "Game ended: not enough players",
            broadcasts := [] }
        else
          { players := updated, removed := true, toreDown := false,
            errorMsg := none, broadcasts := [] }
      else
        { players := updated, removed := true, toreDown := false,
          errorMsg := none,
          broadcasts := [OutMessage.playerLeft guestLogicalId] }

end Lobby

namespace Session

/-! ## `is_game_started` life cycle (`usePeer.ts`: `startGame`, `resetGame`;
`messageHandlers.ts`: `game-start`, `player-ready`). -/

/-- The lobby-session cells these operations touch. -/
structure SessionState where
  isHost : Bool
  isGameStarted : Bool
  selectedGame : Option String
  players : List PlayerInfo
  deriving DecidableEq, Repr

/-- JS falsiness of the `selectedGame` cell (`null` or `""`). -/
def optStrFalsy : Option String -> Bool
  | none => true
  | some g => g == ""

/-- `startGame` (host only): requires a selected game, at least two players,
and every player ready; then sets `isGameStarted` and broadcasts
`game-start` (the broadcast itself carries no further state). -/
def startGame (s : SessionState) : SessionState :=
  if !s.isHost || optStrFalsy s.selectedGame || decide (s.players.length < 2) then s
  else if !(s.players.all (fun p => p.isReady)) then s
  else { s with isGameStarted := true }

/-- `resetGame`: return to the lobby; `isGameStarted` becomes false and every
non-host player is marked not ready. -/
def resetGame (s : SessionState) : SessionState :=
  { s with
      isGameStarted := false
      players := s.players.map (fun p => { p with isReady := p.isHost }) }

/-- Receipt of `game-start` on a connection, after the authority checks of
`handleMessage`: a host drops it (host-only list); a guest accepts it only
from the host connection, then adopts the game, players and the started
flag. -/
def receiveGameStart (s : SessionState) (fromHostConn : Bool)
    (gameId : String) (ps : List PlayerInfo) : SessionState :=
  if s.isHost then s
  else if !fromHostConn then s
  else { s with
      selectedGame := some gameId
      players := ps
      isGameStarted := true }

/-- The `player-ready` handler: update that player's ready flag. -/
def receivePlayerReady (s : SessionState) (playerId : String)
    (isReady : Bool) : SessionState :=
  { s with players := s.players.map (fun p =>
      if p.id == playerId then { p with isReady := isReady } else p) }

/-- The operations of one lobby session that read or write
`isGameStarted`. -/
inductive SessionOp where
  | opStartGame
  | opResetGame
  | opReceiveGameStart (fromHostConn : Bool) (gameId : String)
      (players : List PlayerInfo)
  | opReceivePlayerReady (playerId : String) (isReady : Bool)
  deriving DecidableEq, Repr

/-- One step of the session state machine. -/
def sessionStep (s : SessionState) : SessionOp -> SessionState
  | SessionOp.opStartGame => startGame s
  | SessionOp.opResetGame => resetGame s
  | SessionOp.opReceiveGameStart fh g ps => receiveGameStart s fh g ps
  | SessionOp.opReceivePlayerReady pid r => receivePlayerReady s pid r

end Session

end Ezp2p

/-- C10: the URL code extractor prefers the `?code=` query parameter over the
path and over the trailing-characters heuristic, and on the spec's literal
inputs it returns `"ABCD23"`, `"ABCD23"` and `none` respectively. -/
theorem Ezp2p.Codes.C10_extract_code_query_param (input : String)
    (u : Ezp2p.Codes.UrlModel) (cp : String)
    (hparse : Ezp2p.Codes.parseURL input = some u)
    (hget : Ezp2p.Codes.searchParamsGet u.query "code" = some cp)
    (hne : cp ≠ "")
    (hvalid : Ezp2p.Codes.isValidLobbyCode (Ezp2p.Codes.normalizeLobbyCode cp) = true) :
    Ezp2p.Codes.extractCodeFromUrl input
      = some (Ezp2p.Codes.normalizeLobbyCode cp) ∧
    Ezp2p.Codes.extractCodeFromUrl "https://host/arcade/?code=abcd23" = some "ABCD23" ∧
    Ezp2p.Codes.extractCodeFromUrl "join this: abcd23!" = some "ABCD23" ∧
    Ezp2p.Codes.extractCodeFromUrl "??" = none := by
  refine ⟨?_, by decide, by decide, by decide⟩
  unfold Ezp2p.Codes.extractCodeFromUrl
  rw [hparse]
  simp [hget, hne, hvalid]

/-- C10 witness: the preference hypothesis is satisfiable; instantiate the
theorem on the spec's first literal input. -/
theorem Ezp2p.Codes.C10_extract_code_query_param_witness :
    Ezp2p.Codes.extractCodeFromUrl "https://host/arcade/?code=abcd23"
      = some (Ezp2p.Codes.normalizeLobbyCode "abcd23") :=
  (Ezp2p.Codes.C10_extract_code_query_param "https://host/arcade/?code=abcd23"
    { pathname := "/arcade/".data, query := "code=abcd23".data } "abcd23"
    (by decide) (by decide) (by decide) (by decide)).1

/-- C1: on every peer a pending move is applied (via `apply_move`) only when a
`finalize-move` matching the current pending move's id has been received and
the pending move is locally approved; a finalize for a locally unapproved
pending move, or with no pending move, leaves `game_state` unchanged with the
pending slot cleared. -/
theorem Ezp2p.Engine.C1_dual_approval_finalize {TState TMove : Type}
    (applyMove : TState → TMove → TState) :
    (∀ (s : Ezp2p.Engine.EngineState TState TMove) (mid : String),
        Ezp2p.Engine.receiveFinalizeMove true applyMove s mid = s) ∧
    (∀ (s : Ezp2p.Engine.EngineState TState TMove)
        (pm : Ezp2p.Engine.PendingMoveState TMove),
        s.pendingMove = some pm → s.finalizeReceived = some pm.id →
        pm.locallyApproved = true →
        Ezp2p.Engine.finalizationEffect applyMove s =
          { s with gameState := applyMove s.gameState pm.move,
                   pendingMove := none, finalizeReceived := none }) ∧
    (∀ (s : Ezp2p.Engine.EngineState TState TMove)
        (pm : Ezp2p.Engine.PendingMoveState TMove) (mid : String),
        s.pendingMove = some pm → pm.locallyApproved = false → mid = pm.id →
        (Ezp2p.Engine.receiveFinalizeMove false applyMove s mid).gameState
            = s.gameState ∧
        (Ezp2p.Engine.receiveFinalizeMove false applyMove s mid).pendingMove
            = none) ∧
    (∀ (s : Ezp2p.Engine.EngineState TState TMove) (mid : String),
        s.pendingMove = none →
        (Ezp2p.Engine.receiveFinalizeMove false applyMove s mid).gameState
            = s.gameState ∧
        (Ezp2p.Engine.receiveFinalizeMove false applyMove s mid).pendingMove
            = none) ∧
    (∀ (s : Ezp2p.Engine.EngineState TState TMove) (mid : String),
        (Ezp2p.Engine.receiveFinalizeMove false applyMove s mid).gameState
            ≠ s.gameState →
        ∃ pm, s.pendingMove = some pm ∧ mid = pm.id ∧
          pm.locallyApproved = true ∧
          (Ezp2p.Engine.receiveFinalizeMove false applyMove s mid).gameState
            = applyMove s.gameState pm.move) := by
  refine ⟨?_, ?_, ?_, ?_, ?_⟩
  · intro s mid
    simp [Ezp2p.Engine.receiveFinalizeMove]
  · intro s pm hpm hfr hla
    simp [Ezp2p.Engine.finalizationEffect, hpm, hfr, hla]
  · intro s pm mid hpm hla hmid
    simp [Ezp2p.Engine.receiveFinalizeMove, Ezp2p.Engine.finalizationEffect,
      hpm, hla, hmid]
  · intro s mid hpm
    simp [Ezp2p.Engine.receiveFinalizeMove, Ezp2p.Engine.finalizationEffect,
      hpm]
  · intro s mid hne
    cases hpm : s.pendingMove with
    | none =>
      exfalso
      apply hne
      simp [Ezp2p.Engine.receiveFinalizeMove, Ezp2p.Engine.finalizationEffect,
        hpm]
    | some pm =>
      by_cases hmid : mid = pm.id
      · by_cases hla : pm.locallyApproved
        · exact ⟨pm, rfl, hmid, hla, by
            simp [Ezp2p.Engine.receiveFinalizeMove,
              Ezp2p.Engine.finalizationEffect, hpm, hmid, hla]⟩
        · exfalso
          apply hne
          simp [Ezp2p.Engine.receiveFinalizeMove,
            Ezp2p.Engine.finalizationEffect, hpm, hmid, hla]
      · exfalso
        apply hne
        simp [Ezp2p.Engine.receiveFinalizeMove,
          Ezp2p.Engine.finalizationEffect, hpm, hmid]

/-- C1 witness: concrete two-player engine states exercising each clause of
the dual-approval theorem, with `Nat` game states and additive moves. -/
theorem Ezp2p.Engine.C1_dual_approval_finalize_witness :
    (Ezp2p.Engine.receiveFinalizeMove false (fun (s m : Nat) => s + m)
        { gameState := 10,
          pendingMove := some
            { id := "m1", move := 5, proposerId := "a",
              approvals := ["a"], locallyApproved := false },
          finalizeReceived := none, hasReceivedInitialSync := true }
        "m1").gameState = 10 ∧
    (Ezp2p.Engine.receiveFinalizeMove false (fun (s m : Nat) => s + m)
        { gameState := 10,
          pendingMove := some
            { id := "m1", move := 5, proposerId := "a",
              approvals := ["a"], locallyApproved := false },
          finalizeReceived := none, hasReceivedInitialSync := true }
        "m1").pendingMove = none ∧
    Ezp2p.Engine.finalizationEffect (fun (s m : Nat) => s + m)
        { gameState := 10,
          pendingMove := some
            { id := "m2", move := 7, proposerId := "b",
              approvals := ["a", "b"], locallyApproved := true },
          finalizeReceived := some "m2", hasReceivedInitialSync := true } =
      { gameState := 17, pendingMove := none, finalizeReceived := none,
        hasReceivedInitialSync := true } ∧
    (Ezp2p.Engine.receiveFinalizeMove false (fun (s m : Nat) => s + m)
        { gameState := 10, pendingMove := none,
          finalizeReceived := none, hasReceivedInitialSync := true }
        "m3").gameState = 10 := by
  have h := Ezp2p.Engine.C1_dual_approval_finalize (fun (s m : Nat) => s + m)
  refine ⟨?_, ?_, ?_, ?_⟩
  · exact (h.2.2.1
      { gameState := 10,
        pendingMove := some
          { id := "m1", move := 5, proposerId := "a",
            approvals := ["a"], locallyApproved := false },
        finalizeReceived := none, hasReceivedInitialSync := true }
      { id := "m1", move := 5, proposerId := "a",
        approvals := ["a"], locallyApproved := false }
      "m1" rfl rfl rfl).1
  · exact (h.2.2.1
      { gameState := 10,
        pendingMove := some
          { id := "m1", move := 5, proposerId := "a",
            approvals := ["a"], locallyApproved := false },
        finalizeReceived := none, hasReceivedInitialSync := true }
      { id := "m1", move := 5, proposerId := "a",
        approvals := ["a"], locallyApproved := false }
      "m1" rfl rfl rfl).2
  · exact h.2.1
      { gameState := 10,
        pendingMove := some
          { id := "m2", move := 7, proposerId := "b",
            approvals := ["a", "b"], locallyApproved := true },
        finalizeReceived := some "m2", hasReceivedInitialSync := true }
      { id := "m2", move := 7, proposerId := "b",
        approvals := ["a", "b"], locallyApproved := true }
      rfl rfl rfl
  · exact (h.2.2.2.1
      { gameState := 10, pendingMove := none,
        finalizeReceived := none, hasReceivedInitialSync := true }
      "m3" rfl).1

/-- C2: the host broadcasts `finalize-move` carrying the pending move's id and
triggers its local finalization path exactly when the approvals cover every
player not listed in `disconnectedPlayerIds`; otherwise nothing is emitted
and the state is unchanged. -/
theorem Ezp2p.Engine.C2_host_unanimous_finalize {TState TMove : Type}
    (players : List Ezp2p.PlayerInfo) (disconnectedPlayerIds : List String)
    (s : Ezp2p.Engine.EngineState TState TMove)
    (pm : Ezp2p.Engine.PendingMoveState TMove)
    (hpm : s.pendingMove = some pm) :
    ((∀ p ∈ players, p.id ∉ disconnectedPlayerIds → p.id ∈ pm.approvals) →
      Ezp2p.Engine.hostConsensusCheck true players disconnectedPlayerIds s =
        ({ s with finalizeReceived := some pm.id }, some pm.id)) ∧
    ((∃ p ∈ players, p.id ∉ disconnectedPlayerIds ∧ p.id ∉ pm.approvals) →
      Ezp2p.Engine.hostConsensusCheck true players disconnectedPlayerIds s =
        (s, none)) := by
  constructor
  · intro hall
    simp [Ezp2p.Engine.hostConsensusCheck, hpm, List.all_eq_true,
      List.mem_filter]
    intro p hp hnd
    exact hall p hp hnd
  · rintro ⟨p, hp, hnd, hnotappr⟩
    have hmem : p ∈ players.filter
        (fun q => !(disconnectedPlayerIds.contains q.id)) := by
      simp [List.mem_filter, hp, hnd]
    have hfalse : ¬ ((players.filter
        (fun q => !(disconnectedPlayerIds.contains q.id))).all
        (fun q => pm.approvals.contains q.id) = true) := by
      intro hall
      have hc := List.all_eq_true.mp hall p hmem
      simp at hc
      exact hnotappr hc
    simp [Ezp2p.Engine.hostConsensusCheck, hpm, hfalse]
    exact ⟨p, hp, hnd, hnotappr⟩

/-- C2 witness: a two-player lobby; with both approvals present the finalize
is emitted, with the guest approval missing it is not. -/
theorem Ezp2p.Engine.C2_host_unanimous_finalize_witness :
    Ezp2p.Engine.hostConsensusCheck true
      [{ id := "h", name := "H", isHost := true, isReady := true,
         isConnected := some true },
       { id := "g", name := "G", isHost := false, isReady := true,
         isConnected := some true }] []
      ({ gameState := (0 : Nat),
         pendingMove := some
           { id := "m9", move := (3 : Nat), proposerId := "h",
             approvals := ["h", "g"], locallyApproved := true },
         finalizeReceived := none, hasReceivedInitialSync := true }) =
      ({ gameState := 0,
         pendingMove := some
           { id := "m9", move := 3, proposerId := "h",
             approvals := ["h", "g"], locallyApproved := true },
         finalizeReceived := some "m9", hasReceivedInitialSync := true },
       some "m9") ∧
    Ezp2p.Engine.hostConsensusCheck true
      [{ id := "h", name := "H", isHost := true, isReady := true,
         isConnected := some true },
       { id := "g", name := "G", isHost := false, isReady := true,
         isConnected := some true }] []
      ({ gameState := (0 : Nat),
         pendingMove := some
           { id := "m9", move := (3 : Nat), proposerId := "h",
             approvals := ["h"], locallyApproved := true },
         finalizeReceived := none, hasReceivedInitialSync := true }) =
      ({ gameState := 0,
         pendingMove := some
           { id := "m9", move := 3, proposerId := "h",
             approvals := ["h"], locallyApproved := true },
         finalizeReceived := none, hasReceivedInitialSync := true },
       none) := by
  constructor
  · exact (@Ezp2p.Engine.C2_host_unanimous_finalize Nat Nat
      [{ id := "h", name := "H", isHost := true, isReady := true,
         isConnected := some true },
       { id := "g", name := "G", isHost := false, isReady := true,
         isConnected := some true }] []
      { gameState := 0,
        pendingMove := some
          { id := "m9", move := 3, proposerId := "h",
            approvals := ["h", "g"], locallyApproved := true },
        finalizeReceived := none, hasReceivedInitialSync := true }
      { id := "m9", move := 3, proposerId := "h",
        approvals := ["h", "g"], locallyApproved := true }
      rfl).1 (by decide)
  · exact (@Ezp2p.Engine.C2_host_unanimous_finalize Nat Nat
      [{ id := "h", name := "H", isHost := true, isReady := true,
         isConnected := some true },
       { id := "g", name := "G", isHost := false, isReady := true,
         isConnected := some true }] []
      { gameState := 0,
        pendingMove := some
          { id := "m9", move := 3, proposerId := "h",
            approvals := ["h"], locallyApproved := true },
        finalizeReceived := none, hasReceivedInitialSync := true }
      { id := "m9", move := 3, proposerId := "h",
        approvals := ["h"], locallyApproved := true }
      rfl).2
      ⟨{ id := "g", name := "G", isHost := false, isReady := true,
         isConnected := some true }, by decide, by decide, by decide⟩

/-- C7: a guest applies a received `sync-state` exactly once — the first
delivery sets the game state and latches `has_received_initial_sync`, and
every later delivery leaves the whole engine state unchanged. -/
theorem Ezp2p.Engine.C7_sync_state_once {TState TMove : Type}
    (s : Ezp2p.Engine.EngineState TState TMove) (t1 t2 : TState)
    (h : s.hasReceivedInitialSync = false) :
    (Ezp2p.Engine.receiveSyncState false s t1).gameState = t1 ∧
    (Ezp2p.Engine.receiveSyncState false s t1).hasReceivedInitialSync = true ∧
    Ezp2p.Engine.receiveSyncState false
        (Ezp2p.Engine.receiveSyncState false s t1) t2
      = Ezp2p.Engine.receiveSyncState false s t1 := by
  simp [Ezp2p.Engine.receiveSyncState, h]

/-- C7 witness: a fresh guest engine over `Nat` states accepts the first sync
and refuses a second. -/
theorem Ezp2p.Engine.C7_sync_state_once_witness :
    (Ezp2p.Engine.receiveSyncState false
        ({ gameState := 0, pendingMove := none, finalizeReceived := none,
           hasReceivedInitialSync := false } :
          Ezp2p.Engine.EngineState Nat Nat) 42).gameState = 42 ∧
    Ezp2p.Engine.receiveSyncState false
        (Ezp2p.Engine.receiveSyncState false
          ({ gameState := 0, pendingMove := none, finalizeReceived := none,
             hasReceivedInitialSync := false } :
            Ezp2p.Engine.EngineState Nat Nat) 42) 99
      = Ezp2p.Engine.receiveSyncState false
          ({ gameState := 0, pendingMove := none, finalizeReceived := none,
             hasReceivedInitialSync := false } :
            Ezp2p.Engine.EngineState Nat Nat) 42 := by
  have h := Ezp2p.Engine.C7_sync_state_once
    ({ gameState := 0, pendingMove := none, finalizeReceived := none,
       hasReceivedInitialSync := false } :
      Ezp2p.Engine.EngineState Nat Nat) 42 99 rfl
  exact ⟨h.1, h.2.2⟩

/-- C3 counterexample: a `game-message` from a connection whose transport
address has no logical-id mapping is NOT dropped by the host — it is
dispatched to the local handler and relayed — contrary to the claim that
unmapped connections are rejected for all non-join traffic. -/
theorem Ezp2p.Net.C3_unmapped_game_message_dispatched :
    Ezp2p.Net.handleGameMessageOnHost []
      false 0
      { type := "game-message", senderId := "attacker", timestamp := 0,
        payloadPlayerId := none }
      "peer-x"
      = { dispatched := true, relayed := true } := by decide

/-- C3 amended: the host's sender-binding check drops a non-join message
only when the connection's transport address IS mapped to a non-empty
logical id that differs from `sender_id`; a message from an unmapped
connection — and likewise one whose mapped id is the JS-falsy empty string
— passes the check, and in particular a fresh `game-message` from such a
connection is dispatched and relayed. -/
theorem Ezp2p.Net.C3_sender_binding (peerMap : List (String × String))
    (now : Int) (msg : Ezp2p.Net.WireMsg) (connPeer : String) :
    (∀ v, Ezp2p.alGet peerMap connPeer = some v → v ≠ "" →
        v ≠ msg.senderId → msg.type ≠ "join-request" →
        Ezp2p.Net.inboundAccepts true peerMap false now msg connPeer false
          = false) ∧
    (Ezp2p.alGet peerMap connPeer = none → msg.type = "game-message" →
        (now - msg.timestamp).natAbs ≤ 30000 → msg.senderId ≠ "" →
        Ezp2p.Net.handleGameMessageOnHost peerMap false now msg connPeer
          = { dispatched := true, relayed := true }) ∧
    (Ezp2p.alGet peerMap connPeer = some "" → msg.type = "game-message" →
        (now - msg.timestamp).natAbs ≤ 30000 → msg.senderId ≠ "" →
        Ezp2p.Net.handleGameMessageOnHost peerMap false now msg connPeer
          = { dispatched := true, relayed := true }) := by
  refine ⟨?_, ?_, ?_⟩
  · intro v hmap hve hne htype
    simp [Ezp2p.Net.inboundAccepts, hmap, htype, hve, hne]
  · intro hmap htype hfresh hsender
    have hnotlt : ¬ (30000 < (now - msg.timestamp).natAbs) := by omega
    simp [Ezp2p.Net.handleGameMessageOnHost, Ezp2p.Net.inboundAccepts,
      hmap, htype, hnotlt, hsender, Ezp2p.Net.hostOnlyTypes]
  · intro hmap htype hfresh hsender
    have hnotlt : ¬ (30000 < (now - msg.timestamp).natAbs) := by omega
    simp [Ezp2p.Net.handleGameMessageOnHost, Ezp2p.Net.inboundAccepts,
      hmap, htype, hnotlt, hsender, Ezp2p.Net.hostOnlyTypes]

/-- C3 amended witness: a message mapped to a non-empty mismatching id is
dropped; an unmapped `game-message` goes through; and a `game-message` from
a connection mapped to the empty id also goes through. -/
theorem Ezp2p.Net.C3_sender_binding_witness :
    Ezp2p.Net.inboundAccepts true [("peer-x", "g1")] false 0
      { type := "game-message", senderId := "g2", timestamp := 0,
        payloadPlayerId := none }
      "peer-x" false = false ∧
    Ezp2p.Net.handleGameMessageOnHost [("peer-y", "g1")] false 0
      { type := "game-message", senderId := "g1", timestamp := 0,
        payloadPlayerId := none }
      "peer-x"
      = { dispatched := true, relayed := true } ∧
    Ezp2p.Net.handleGameMessageOnHost [("peer-x", "")] false 0
      { type := "game-message", senderId := "g2", timestamp := 0,
        payloadPlayerId := none }
      "peer-x"
      = { dispatched := true, relayed := true } := by
  refine ⟨?_, ?_, ?_⟩
  · exact (Ezp2p.Net.C3_sender_binding [("peer-x", "g1")] 0
      { type := "game-message", senderId := "g2", timestamp := 0,
        payloadPlayerId := none }
      "peer-x").1 "g1" (by decide) (by decide) (by decide) (by decide)
  · exact (Ezp2p.Net.C3_sender_binding [("peer-y", "g1")] 0
      { type := "game-message", senderId := "g1", timestamp := 0,
        payloadPlayerId := none }
      "peer-x").2.1 (by decide) (by decide) (by decide) (by decide)
  · exact (Ezp2p.Net.C3_sender_binding [("peer-x", "")] 0
      { type := "game-message", senderId := "g2", timestamp := 0,
        payloadPlayerId := none }
      "peer-x").2.2 (by decide) (by decide) (by decide) (by decide)

/-- C4: a join-request for an existing player with a stored session token
and a non-matching presented token is answered `join-rejected{denied}` with
a grace close, and the host state — players, stored connections, and the
token on file for that id — is unchanged. -/
theorem Ezp2p.Lobby.C4_wrong_token_rejected
    (ctx : Ezp2p.Lobby.HostState) (payload : Ezp2p.Lobby.JoinRequestPayload)
    (fromConn : Ezp2p.Lobby.Conn) (freshToken : String) (now : Nat)
    (p : Ezp2p.PlayerInfo) (t : String)
    (hhost : ctx.isHost = true)
    (hfind : ctx.players.find? (fun q => q.id == payload.playerId) = some p)
    (htok : Ezp2p.alGet ctx.sessionTokens payload.playerId = some t)
    (hne : t ≠ "")
    (hmismatch : payload.sessionToken ≠ some t) :
    Ezp2p.Lobby.handleJoinRequest ctx payload fromConn freshToken now =
      (ctx, [Ezp2p.Lobby.HostEffect.send fromConn
               (Ezp2p.Lobby.OutMessage.joinRejected "denied"),
             Ezp2p.Lobby.HostEffect.closeAfterGrace fromConn]) ∧
    (Ezp2p.Lobby.handleJoinRequest ctx payload fromConn freshToken
       now).1.players = ctx.players ∧
    (Ezp2p.Lobby.handleJoinRequest ctx payload fromConn freshToken
       now).1.connections = ctx.connections ∧
    Ezp2p.alGet (Ezp2p.Lobby.handleJoinRequest ctx payload fromConn freshToken
       now).1.sessionTokens payload.playerId = some t := by
  have h1 : Ezp2p.Lobby.handleJoinRequest ctx payload fromConn freshToken now =
      (ctx, [Ezp2p.Lobby.HostEffect.send fromConn
               (Ezp2p.Lobby.OutMessage.joinRejected "denied"),
             Ezp2p.Lobby.HostEffect.closeAfterGrace fromConn]) := by
    simp [Ezp2p.Lobby.handleJoinRequest, hhost, hfind, htok, hne, hmismatch]
  refine ⟨h1, ?_, ?_, ?_⟩
  · rw [h1]
  · rw [h1]
  · rw [h1]
    exact htok

/-- C4 witness: a concrete two-player lobby where `g1` presents the wrong
token. -/
theorem Ezp2p.Lobby.C4_wrong_token_rejected_witness :
    Ezp2p.Lobby.handleJoinRequest
      { isHost := true, localPlayerId := "h",
        players := [{ id := "h", name := "Host", isHost := true,
                      isReady := true, isConnected := some true },
                    { id := "g1", name := "G", isHost := false,
                      isReady := false, isConnected := some false }],
        selectedGame := none, requiresRequest := true, isGameStarted := false,
        maxPlayers := 4, pendingRequests := [],
        sessionTokens := [("g1", "tok-a")], connections := [],
        peerIdToLogicalId := [], reconnectionTimers := [] }
      { playerName := "G", playerId := "g1", sessionToken := some "tok-b" }
      { peer := "pg", connId := 7 } "fresh" 0 =
    ({ isHost := true, localPlayerId := "h",
       players := [{ id := "h", name := "Host", isHost := true,
                     isReady := true, isConnected := some true },
                   { id := "g1", name := "G", isHost := false,
                     isReady := false, isConnected := some false }],
       selectedGame := none, requiresRequest := true, isGameStarted := false,
       maxPlayers := 4, pendingRequests := [],
       sessionTokens := [("g1", "tok-a")], connections := [],
       peerIdToLogicalId := [], reconnectionTimers := [] },
     [Ezp2p.Lobby.HostEffect.send { peer := "pg", connId := 7 }
        (Ezp2p.Lobby.OutMessage.joinRejected "denied"),
      Ezp2p.Lobby.HostEffect.closeAfterGrace
        { peer := "pg", connId := 7 }]) :=
  (Ezp2p.Lobby.C4_wrong_token_rejected
    { isHost := true, localPlayerId := "h",
      players := [{ id := "h", name := "Host", isHost := true,
                    isReady := true, isConnected := some true },
                  { id := "g1", name := "G", isHost := false,
                    isReady := false, isConnected := some false }],
      selectedGame := none, requiresRequest := true, isGameStarted := false,
      maxPlayers := 4, pendingRequests := [],
      sessionTokens := [("g1", "tok-a")], connections := [],
      peerIdToLogicalId := [], reconnectionTimers := [] }
    { playerName := "G", playerId := "g1", sessionToken := some "tok-b" }
    { peer := "pg", connId := 7 } "fresh" 0
    { id := "g1", name := "G", isHost := false, isReady := false,
      isConnected := some false }
    "tok-a" rfl (by decide) (by decide) (by decide) (by decide)).1

/-- C5 (implicit): when the logical id matches an existing player but no
session token is stored for it, the join-request is accepted as a
reconnection regardless of the presented token — the stored connection and
transport-address mapping are replaced and `join-accepted` is sent (with no
token echoed) — and a freshly created lobby stores no token for the host's
own logical id. -/
theorem Ezp2p.Lobby.C5_no_stored_token_reconnect
    (ctx : Ezp2p.Lobby.HostState) (payload : Ezp2p.Lobby.JoinRequestPayload)
    (fromConn : Ezp2p.Lobby.Conn) (freshToken : String) (now : Nat)
    (p : Ezp2p.PlayerInfo)
    (hhost : ctx.isHost = true)
    (hfind : ctx.players.find? (fun q => q.id == payload.playerId) = some p)
    (htok : Ezp2p.alGet ctx.sessionTokens payload.playerId = none) :
    ((Ezp2p.Lobby.handleJoinRequest ctx payload fromConn freshToken
        now).1.connections
      = Ezp2p.alSet ctx.connections payload.playerId fromConn) ∧
    ((Ezp2p.Lobby.handleJoinRequest ctx payload fromConn freshToken
        now).1.peerIdToLogicalId
      = Ezp2p.alSet ctx.peerIdToLogicalId fromConn.peer payload.playerId) ∧
    ((Ezp2p.Lobby.handleJoinRequest ctx payload fromConn freshToken
        now).1.sessionTokens = ctx.sessionTokens) ∧
    (∃ joined,
      (Ezp2p.Lobby.handleJoinRequest ctx payload fromConn freshToken now).2 =
        [Ezp2p.Lobby.HostEffect.send fromConn
          (Ezp2p.Lobby.OutMessage.joinAccepted
            (ctx.players.map (fun q =>
              if q.id == payload.playerId then { q with isConnected := some true }
              else q))
            ctx.selectedGame ctx.requiresRequest ctx.isGameStarted none),
         Ezp2p.Lobby.HostEffect.broadcastExcept
           (Ezp2p.Lobby.OutMessage.playerJoined joined) payload.playerId]) ∧
    (∀ hostId hostName : String,
      Ezp2p.alGet (Ezp2p.Lobby.createLobbyState hostId
        hostName).sessionTokens hostId = none) := by
  have h1 : Ezp2p.Lobby.handleJoinRequest ctx payload fromConn freshToken now
      = Ezp2p.Lobby.reconnectAccept ctx payload fromConn none p := by
    simp [Ezp2p.Lobby.handleJoinRequest, hhost, hfind, htok]
  refine ⟨?_, ?_, ?_, ?_, ?_⟩
  · rw [h1]; rfl
  · rw [h1]; rfl
  · rw [h1]; rfl
  · rw [h1]
    exact ⟨_, rfl⟩
  · intro hostId hostName
    simp [Ezp2p.Lobby.createLobbyState, Ezp2p.alGet]

/-- C5 witness: an attacker-style join-request claiming the host's own id
with an arbitrary token is accepted on a fresh lobby (the host id has no
stored token), replacing the stored connection for the host id. -/
theorem Ezp2p.Lobby.C5_no_stored_token_reconnect_witness :
    (Ezp2p.Lobby.handleJoinRequest (Ezp2p.Lobby.createLobbyState "h" "Host")
        { playerName := "Mallory", playerId := "h",
          sessionToken := some "guess" }
        { peer := "pm", connId := 9 } "fresh" 0).1.connections
      = Ezp2p.alSet (Ezp2p.Lobby.createLobbyState "h" "Host").connections "h"
          { peer := "pm", connId := 9 } ∧
    Ezp2p.alGet (Ezp2p.Lobby.createLobbyState "h" "Host").sessionTokens "h"
      = none := by
  have h := Ezp2p.Lobby.C5_no_stored_token_reconnect
    (Ezp2p.Lobby.createLobbyState "h" "Host")
    { playerName := "Mallory", playerId := "h", sessionToken := some "guess" }
    { peer := "pm", connId := 9 } "fresh" 0
    { id := "h", name := "Host", isHost := true, isReady := true,
      isConnected := some true }
    rfl (by decide) (by decide)
  exact ⟨h.1, h.2.2.2.2 "h" "Host"⟩

/-- C6 counterexample: admit `g1` (token `token-1`), let `g1` leave, then
let `g1` join again — the token on file for `g1` changes to the fresh
`token-2`, so `session_tokens[g1]` does NOT stay fixed across a leave
followed by a re-join, contrary to the claim. -/
theorem Ezp2p.Lobby.C6_token_overwritten_on_rejoin :
    (Ezp2p.alGet
      (Ezp2p.Lobby.handleJoinRequest
        { Ezp2p.Lobby.createLobbyState "h" "Host" with requiresRequest := false }
        { playerName := "G", playerId := "g1", sessionToken := none }
        { peer := "pg1", connId := 1 } "token-1" 100).1.sessionTokens "g1"
      = some "token-1") ∧
    (Ezp2p.alGet
      (Ezp2p.Lobby.handlePlayerLeft
        (Ezp2p.Lobby.handleJoinRequest
          { Ezp2p.Lobby.createLobbyState "h" "Host" with requiresRequest := false }
          { playerName := "G", playerId := "g1", sessionToken := none }
          { peer := "pg1", connId := 1 } "token-1" 100).1
        "g1").1.sessionTokens "g1" = some "token-1") ∧
    (Ezp2p.alGet
      (Ezp2p.Lobby.handleJoinRequest
        (Ezp2p.Lobby.handlePlayerLeft
          (Ezp2p.Lobby.handleJoinRequest
            { Ezp2p.Lobby.createLobbyState "h" "Host" with requiresRequest := false }
            { playerName := "G", playerId := "g1", sessionToken := none }
            { peer := "pg1", connId := 1 } "token-1" 100).1
          "g1").1
        { playerName := "G", playerId := "g1", sessionToken := some "token-1" }
        { peer := "pg2", connId := 2 } "token-2" 200).1.sessionTokens "g1"
      = some "token-2") ∧
    some "token-2" ≠ some "token-1" := by decide

/-- C6 amended: the token on file for a logical id is unchanged by a
reconnection join-request (matching or absent stored token), by
`player-left`, and by a kick; but a NEW admission of the same id (after the
player entry was removed) overwrites it with the fresh token, so the token
is stable only while the player remains in the players list. -/
theorem Ezp2p.Lobby.C6_tokens_stable_while_admitted
    (ctx : Ezp2p.Lobby.HostState) (payload : Ezp2p.Lobby.JoinRequestPayload)
    (fromConn : Ezp2p.Lobby.Conn) (freshToken : String) (now : Nat) :
    (∀ p t, ctx.isHost = true →
      ctx.players.find? (fun q => q.id == payload.playerId) = some p →
      Ezp2p.alGet ctx.sessionTokens payload.playerId = some t →
      payload.sessionToken = some t →
      (Ezp2p.Lobby.handleJoinRequest ctx payload fromConn freshToken
        now).1.sessionTokens = ctx.sessionTokens) ∧
    (∀ p, ctx.isHost = true →
      ctx.players.find? (fun q => q.id == payload.playerId) = some p →
      Ezp2p.alGet ctx.sessionTokens payload.playerId = none →
      (Ezp2p.Lobby.handleJoinRequest ctx payload fromConn freshToken
        now).1.sessionTokens = ctx.sessionTokens) ∧
    (∀ leftId, (Ezp2p.Lobby.handlePlayerLeft ctx leftId).1.sessionTokens
      = ctx.sessionTokens) ∧
    (∀ pid, (Ezp2p.Lobby.kickPlayer ctx pid).1.sessionTokens
      = ctx.sessionTokens) ∧
    (ctx.isHost = true →
      ctx.players.find? (fun q => q.id == payload.playerId) = none →
      ctx.isGameStarted = false →
      ¬ (ctx.maxPlayers ≤ ctx.players.length) →
      ctx.requiresRequest = false →
      (Ezp2p.Lobby.handleJoinRequest ctx payload fromConn freshToken
        now).1.sessionTokens
        = Ezp2p.alSet ctx.sessionTokens payload.playerId freshToken) := by
  refine ⟨?_, ?_, ?_, ?_, ?_⟩
  · intro p t hhost hfind htok hmatch
    simp [Ezp2p.Lobby.handleJoinRequest, hhost, hfind, htok, hmatch,
      Ezp2p.Lobby.reconnectAccept]
  · intro p hhost hfind htok
    simp [Ezp2p.Lobby.handleJoinRequest, hhost, hfind, htok,
      Ezp2p.Lobby.reconnectAccept]
  · intro leftId
    cases hconn : Ezp2p.alGet ctx.connections leftId with
    | none => simp [Ezp2p.Lobby.handlePlayerLeft, hconn]
    | some conn => simp [Ezp2p.Lobby.handlePlayerLeft, hconn]
  · intro pid
    cases hhost : ctx.isHost with
    | false => simp [Ezp2p.Lobby.kickPlayer, hhost]
    | true =>
      cases hconn : Ezp2p.alGet ctx.connections pid with
      | none => simp [Ezp2p.Lobby.kickPlayer, hhost, hconn]
      | some conn => simp [Ezp2p.Lobby.kickPlayer, hhost, hconn]
  · intro hhost hfind hgame hcap hreq
    simp [Ezp2p.Lobby.handleJoinRequest, hhost, hfind, hgame, hcap, hreq]

/-- C6 amended witness: in the counterexample lobby, `player-left` and the
genuine reconnection leave the token for `g1` untouched. -/
theorem Ezp2p.Lobby.C6_tokens_stable_while_admitted_witness :
    (Ezp2p.Lobby.handlePlayerLeft
      (Ezp2p.Lobby.handleJoinRequest
        { Ezp2p.Lobby.createLobbyState "h" "Host" with requiresRequest := false }
        { playerName := "G", playerId := "g1", sessionToken := none }
        { peer := "pg1", connId := 1 } "token-1" 100).1
      "g1").1.sessionTokens
    = (Ezp2p.Lobby.handleJoinRequest
        { Ezp2p.Lobby.createLobbyState "h" "Host" with requiresRequest := false }
        { playerName := "G", playerId := "g1", sessionToken := none }
        { peer := "pg1", connId := 1 } "token-1" 100).1.sessionTokens ∧
    (Ezp2p.Lobby.handleJoinRequest
      (Ezp2p.Lobby.handleJoinRequest
        { Ezp2p.Lobby.createLobbyState "h" "Host" with requiresRequest := false }
        { playerName := "G", playerId := "g1", sessionToken := none }
        { peer := "pg1", connId := 1 } "token-1" 100).1
      { playerName := "G", playerId := "g1", sessionToken := some "token-1" }
      { peer := "pg2", connId := 2 } "unused" 200).1.sessionTokens
    = (Ezp2p.Lobby.handleJoinRequest
        { Ezp2p.Lobby.createLobbyState "h" "Host" with requiresRequest := false }
        { playerName := "G", playerId := "g1", sessionToken := none }
        { peer := "pg1", connId := 1 } "token-1" 100).1.sessionTokens := by
  constructor
  · exact (Ezp2p.Lobby.C6_tokens_stable_while_admitted
      (Ezp2p.Lobby.handleJoinRequest
        { Ezp2p.Lobby.createLobbyState "h" "Host" with requiresRequest := false }
        { playerName := "G", playerId := "g1", sessionToken := none }
        { peer := "pg1", connId := 1 } "token-1" 100).1
      { playerName := "G", playerId := "g1", sessionToken := some "token-1" }
      { peer := "pg2", connId := 2 } "unused" 200).2.2.1 "g1"
  · exact (Ezp2p.Lobby.C6_tokens_stable_while_admitted
      (Ezp2p.Lobby.handleJoinRequest
        { Ezp2p.Lobby.createLobbyState "h" "Host" with requiresRequest := false }
        { playerName := "G", playerId := "g1", sessionToken := none }
        { peer := "pg1", connId := 1 } "token-1" 100).1
      { playerName := "G", playerId := "g1", sessionToken := some "token-1" }
      { peer := "pg2", connId := 2 } "unused" 200).1
      { id := "g1", name := "G", isHost := false, isReady := false,
        isConnected := some true }
      "token-1" (by decide) (by decide) (by decide) (by decide)

/-- C8 counterexample: mid-game three-player lobby, `c` stays disconnected
past the window. The player is removed and the game continues (more than one
connected player remains), but NO `player-left` is broadcast — contrary to
the claim's "otherwise ... player-left ... is broadcast". -/
theorem Ezp2p.Lobby.C8_silent_removal_in_game :
    Ezp2p.Lobby.reconnectionWindowExpiry true
      [{ id := "a", name := "A", isHost := true, isReady := true,
         isConnected := some true },
       { id := "b", name := "B", isHost := false, isReady := true,
         isConnected := some true },
       { id := "c", name := "C", isHost := false, isReady := true,
         isConnected := some false }]
      "c"
    = { players := [{ id := "a", name := "A", isHost := true, isReady := true,
                      isConnected := some true },
                    { id := "b", name := "B", isHost := false, isReady := true,
                      isConnected := some true }],
        removed := true, toreDown := false, errorMsg := none,
        broadcasts := [] } := by decide

/-- C8 amended: when the reconnection window expires for a player that is
still disconnected, the player is removed from the players list; if the game
has started and at most one connected player remains, the lobby is torn down
with the "not enough players" error (and no broadcast); if the game has not
started, `player-left` with that id is broadcast; if the game has started
and more than one connected player remains, the removal is silent. -/
theorem Ezp2p.Lobby.C8_expiry_cases (players : List Ezp2p.PlayerInfo)
    (guestLogicalId : String) (p : Ezp2p.PlayerInfo)
    (hfind : players.find? (fun q => q.id == guestLogicalId) = some p)
    (hdisc : p.isConnected.getD false = false) :
    (((players.filter (fun q => !(q.id == guestLogicalId))).filter
          (fun q => q.isConnected != some false)).length ≤ 1 →
      Ezp2p.Lobby.reconnectionWindowExpiry true players guestLogicalId =
        { players := players.filter (fun q => !(q.id == guestLogicalId)),
          removed := true, toreDown := true,
          errorMsg := some "Game ended: not enough players",
          broadcasts := [] }) ∧
    (Ezp2p.Lobby.reconnectionWindowExpiry false players guestLogicalId =
      { players := players.filter (fun q => !(q.id == guestLogicalId)),
        removed := true, toreDown := false, errorMsg := none,
        broadcasts := [Ezp2p.Lobby.OutMessage.playerLeft guestLogicalId] }) ∧
    (1 < ((players.filter (fun q => !(q.id == guestLogicalId))).filter
          (fun q => q.isConnected != some false)).length →
      Ezp2p.Lobby.reconnectionWindowExpiry true players guestLogicalId =
        { players := players.filter (fun q => !(q.id == guestLogicalId)),
          removed := true, toreDown := false, errorMsg := none,
          broadcasts := [] }) := by
  refine ⟨?_, ?_, ?_⟩
  · intro hcnt
    simp only [List.filter_filter] at hcnt
    simp [Ezp2p.Lobby.reconnectionWindowExpiry, hfind, hdisc, hcnt]
  · simp [Ezp2p.Lobby.reconnectionWindowExpiry, hfind, hdisc]
  · intro hcnt
    have hnot : ¬ (((players.filter (fun q => !(q.id == guestLogicalId))).filter
        (fun q => q.isConnected != some false)).length ≤ 1) := by omega
    simp only [List.filter_filter] at hnot
    simp [Ezp2p.Lobby.reconnectionWindowExpiry, hfind, hdisc, hnot]

/-- C8 amended witness: a started two-player game where `b` times out tears
the lobby down with the "not enough players" error. -/
theorem Ezp2p.Lobby.C8_expiry_cases_witness :
    Ezp2p.Lobby.reconnectionWindowExpiry true
      [{ id := "a", name := "A", isHost := true, isReady := true,
         isConnected := some true },
       { id := "b", name := "B", isHost := false, isReady := true,
         isConnected := some false }]
      "b"
    = { players := [{ id := "a", name := "A", isHost := true, isReady := true,
                      isConnected := some true }],
        removed := true, toreDown := true,
        errorMsg := some "Game ended: not enough players",
        broadcasts := [] } :=
  (Ezp2p.Lobby.C8_expiry_cases
    [{ id := "a", name := "A", isHost := true, isReady := true,
       isConnected := some true },
     { id := "b", name := "B", isHost := false, isReady := true,
       isConnected := some false }]
    "b"
    { id := "b", name := "B", isHost := false, isReady := true,
      isConnected := some false }
    (by decide) (by decide)).1 (by decide)

/-- C9 counterexample: start, reset, re-ready the guest, start again — two
distinct false-to-true transitions of `is_game_started` within one lobby
session, contrary to "exactly once per lobby session". -/
theorem Ezp2p.Session.C9_second_start_after_reset :
    ({ isHost := true, isGameStarted := false,
       selectedGame := some "dots-and-boxes",
       players := [{ id := "h", name := "H", isHost := true, isReady := true,
                     isConnected := some true },
                   { id := "g", name := "G", isHost := false, isReady := true,
                     isConnected := some true }] } :
      Ezp2p.Session.SessionState).isGameStarted = false ∧
    (Ezp2p.Session.sessionStep
      { isHost := true, isGameStarted := false,
        selectedGame := some "dots-and-boxes",
        players := [{ id := "h", name := "H", isHost := true, isReady := true,
                      isConnected := some true },
                    { id := "g", name := "G", isHost := false, isReady := true,
                      isConnected := some true }] }
      Ezp2p.Session.SessionOp.opStartGame).isGameStarted = true ∧
    (Ezp2p.Session.sessionStep
      (Ezp2p.Session.sessionStep
        { isHost := true, isGameStarted := false,
          selectedGame := some "dots-and-boxes",
          players := [{ id := "h", name := "H", isHost := true,
                        isReady := true, isConnected := some true },
                      { id := "g", name := "G", isHost := false,
                        isReady := true, isConnected := some true }] }
        Ezp2p.Session.SessionOp.opStartGame)
      Ezp2p.Session.SessionOp.opResetGame).isGameStarted = false ∧
    (Ezp2p.Session.sessionStep
      (Ezp2p.Session.sessionStep
        (Ezp2p.Session.sessionStep
          (Ezp2p.Session.sessionStep
            { isHost := true, isGameStarted := false,
              selectedGame := some "dots-and-boxes",
              players := [{ id := "h", name := "H", isHost := true,
                            isReady := true, isConnected := some true },
                          { id := "g", name := "G", isHost := false,
                            isReady := true, isConnected := some true }] }
            Ezp2p.Session.SessionOp.opStartGame)
          Ezp2p.Session.SessionOp.opResetGame)
        (Ezp2p.Session.SessionOp.opReceivePlayerReady "g" true))
      Ezp2p.Session.SessionOp.opStartGame).isGameStarted = true := by decide

/-- C9 amended: `is_game_started` can go from false to true more than once
in a lobby session (`resetGame` re-arms it), but every false-to-true
transition is driven by the host: it happens only through the host's own
`startGame` or through a `game-start` accepted from the host connection on
a guest. -/
theorem Ezp2p.Session.C9_start_driven_by_host
    (s : Ezp2p.Session.SessionState) (op : Ezp2p.Session.SessionOp)
    (h0 : s.isGameStarted = false)
    (h1 : (Ezp2p.Session.sessionStep s op).isGameStarted = true) :
    (op = Ezp2p.Session.SessionOp.opStartGame ∧ s.isHost = true) ∨
    (∃ gameId ps,
      op = Ezp2p.Session.SessionOp.opReceiveGameStart true gameId ps ∧
      s.isHost = false) := by
  cases op with
  | opStartGame =>
    cases hh : s.isHost with
    | true => exact Or.inl ⟨rfl, rfl⟩
    | false =>
      exfalso
      simp [Ezp2p.Session.sessionStep, Ezp2p.Session.startGame, hh] at h1
      rw [h0] at h1
      exact Bool.false_ne_true h1
  | opResetGame =>
    exfalso
    simp [Ezp2p.Session.sessionStep, Ezp2p.Session.resetGame] at h1
  | opReceiveGameStart fh g ps =>
    cases hh : s.isHost with
    | true =>
      exfalso
      simp [Ezp2p.Session.sessionStep, Ezp2p.Session.receiveGameStart, hh]
        at h1
      rw [h0] at h1
      exact Bool.false_ne_true h1
    | false =>
      cases fh with
      | false =>
        exfalso
        simp [Ezp2p.Session.sessionStep, Ezp2p.Session.receiveGameStart, hh]
          at h1
        rw [h0] at h1
        exact Bool.false_ne_true h1
      | true => exact Or.inr ⟨g, ps, rfl, rfl⟩
  | opReceivePlayerReady pid r =>
    exfalso
    simp [Ezp2p.Session.sessionStep, Ezp2p.Session.receivePlayerReady] at h1
    rw [h0] at h1
    exact Bool.false_ne_true h1

/-- C9 amended witness: the counterexample's first transition is classified
as a host `startGame`. -/
theorem Ezp2p.Session.C9_start_driven_by_host_witness :
    (Ezp2p.Session.SessionOp.opStartGame
        = Ezp2p.Session.SessionOp.opStartGame ∧
      ({ isHost := true, isGameStarted := false,
         selectedGame := some "dots-and-boxes",
         players := [{ id := "h", name := "H", isHost := true,
                       isReady := true, isConnected := some true },
                     { id := "g", name := "G", isHost := false,
                       isReady := true, isConnected := some true }] } :
        Ezp2p.Session.SessionState).isHost = true) ∨
    (∃ gameId ps,
      Ezp2p.Session.SessionOp.opStartGame
        = Ezp2p.Session.SessionOp.opReceiveGameStart true gameId ps ∧
      ({ isHost := true, isGameStarted := false,
         selectedGame := some "dots-and-boxes",
         players := [{ id := "h", name := "H", isHost := true,
                       isReady := true, isConnected := some true },
                     { id := "g", name := "G", isHost := false,
                       isReady := true, isConnected := some true }] } :
        Ezp2p.Session.SessionState).isHost = false) :=
  Ezp2p.Session.C9_start_driven_by_host
    { isHost := true, isGameStarted := false,
      selectedGame := some "dots-and-boxes",
      players := [{ id := "h", name := "H", isHost := true,
                    isReady := true, isConnected := some true },
                  { id := "g", name := "G", isHost := false,
                    isReady := true, isConnected := some true }] }
    Ezp2p.Session.SessionOp.opStartGame (by decide) (by decide)
